import Mathlib

set_option linter.unusedVariables false

/-!
Shallow embedding of `scripts/extract-pdf.py` (PDF structural extraction
pipeline): string helpers modelling Python `str` operations, a small
backtracking matcher for the fixed regular expressions appearing in the
source, the header/footer and element-type classifiers, and the
`extract_pdf` page loop over an abstract page-primitive collaborator
(pdfplumber is external to the repository and is modelled as data and
function fields of a `Page`).

Floats (page coordinates) are modelled as rationals; Python strings as
Lean `String` (a list of unicode code points, matching Python `len` /
slicing semantics).
-/

namespace ExtractPdf

/-- Python whitespace (`str.strip`, regex `\s`), restricted to the ASCII
whitespace characters. -/
def isSpacePy (c : Char) : Bool :=
  c == ' ' || c == '\t' || c == '\n' || c == '\r' || c == '\x0b' || c == '\x0c'

/-- Python `str.lower` on one character, covering ASCII and the Latin-1
uppercase letters (enough for the accented letters appearing in the
source's patterns). -/
def pyLowerChar (c : Char) : Char :=
  if 'A' ≤ c && c ≤ 'Z' then Char.ofNat (c.toNat + 32)
  else if (0xC0 ≤ c.toNat && c.toNat ≤ 0xDE) && c.toNat ≠ 0xD7 then Char.ofNat (c.toNat + 32)
  else c

/-- Python `str.lower`. -/
def pyLower (s : String) : String := ⟨s.data.map pyLowerChar⟩

/-- Python `str.strip` on a character list. -/
def pyStripL (l : List Char) : List Char :=
  ((l.dropWhile isSpacePy).reverse.dropWhile isSpacePy).reverse

/-- Python `str.strip`. -/
def pyStrip (s : String) : String := ⟨pyStripL s.data⟩

/-- Python `str.split('\n')` on a character list: every newline is a
separator, so the result is never empty. -/
def splitNlL : List Char → List (List Char)
  | [] => [[]]
  | c :: rest =>
    if c = '\n' then [] :: splitNlL rest
    else
      match splitNlL rest with
      | [] => [[c]]
      | h :: t => (c :: h) :: t

/-- Python `str.split('\n')`. -/
def splitNl (s : String) : List String := (splitNlL s.data).map String.mk

/-! ### A small regular-expression matcher

The source uses `re.search` / `re.match` with a fixed set of patterns
built from literals, character classes, `\d`, `\s`, `.`, `*`, `+`, `?`,
alternation, and the anchors `^` and `$`.  `Re` is the abstract syntax
(the `^` anchor is handled at the pattern level, `$` as `eos`, which in
Python matches at the end of the string or just before a final newline).
-/

inductive Re where
  | eps : Re
  | eos : Re
  | cls : (Char → Bool) → Re
  | cat : Re → Re → Re
  | alt : Re → Re → Re
  | star : Re → Re

/-- Backtracking matcher: the list of possible remainders after matching
a prefix of `s` against `r`, in greedy preference order.  The recursion
is structural on `fuel`; a star iteration must consume at least one
character (the `filter`), matching the regex semantics, and `reFuel`
below always supplies enough fuel (recursion depth is bounded by
`(s.length + 1) * (reSize r + 1)`). -/
def Re.sufs : Nat → Re → List Char → List (List Char)
  | 0, _, _ => []
  | _+1, .eps, s => [s]
  | _+1, .eos, s => if s = [] ∨ s = ['\n'] then [s] else []
  | _+1, .cls _, [] => []
  | _+1, .cls p, c :: s => if p c then [s] else []
  | f+1, .cat r1 r2, s => (Re.sufs f r1 s).flatMap (fun t => Re.sufs f r2 t)
  | f+1, .alt r1 r2, s => Re.sufs f r1 s ++ Re.sufs f r2 s
  | f+1, .star r, s =>
    (((Re.sufs f r s).filter (fun t => t.length < s.length)).flatMap
      (fun t => Re.sufs f (Re.star r) t)) ++ [s]

/-- Node count of a regular expression (for the fuel bound). -/
def reSize : Re → Nat
  | .eps => 1
  | .eos => 1
  | .cls _ => 1
  | .cat r1 r2 => reSize r1 + reSize r2 + 1
  | .alt r1 r2 => reSize r1 + reSize r2 + 1
  | .star r => reSize r + 1

/-- Sufficient fuel for matching `r` against `s`. -/
def reFuel (r : Re) (s : List Char) : Nat := (s.length + 1) * (reSize r + 1)

/-- Does `r` match some prefix of `s`? -/
def reTry (r : Re) (s : List Char) : Bool := !(Re.sufs (reFuel r s) r s).isEmpty

/-- Does `r` match starting at some position of `s`? -/
def searchFromL (r : Re) : List Char → Bool
  | [] => reTry r []
  | c :: s => reTry r (c :: s) || searchFromL r s

/-- A compiled pattern: `anchored` records a leading `^`. -/
structure Pat where
  anchored : Bool
  re : Re

/-- Python `re.search(pattern, s)` (as a boolean). -/
def reSearch (p : Pat) (s : String) : Bool :=
  if p.anchored then reTry p.re s.data else searchFromL p.re s.data

/-- Python `re.match(pattern, s)` (as a boolean): anchored at position 0. -/
def reMatch (r : Re) (s : String) : Bool := reTry r s.data

/-- Literal string pattern. -/
def lit (s : String) : Re :=
  s.data.foldr (fun c r => Re.cat (Re.cls (fun d => d == c)) r) Re.eps

/-- Pattern `\s*`. -/
def sp0 : Re := Re.star (Re.cls isSpacePy)

/-- Pattern `\d`. -/
def dig : Re := Re.cls Char.isDigit

/-- Pattern `r+`. -/
def rplus (r : Re) : Re := Re.cat r (Re.star r)

/-- Pattern `r?`. -/
def ropt (r : Re) : Re := Re.alt r Re.eps

/-- The thirteen `header_patterns` of `is_page_header`, in source order. -/
def header_patterns : List Pat :=
  [ -- r"^página\s*[<\d]"
    ⟨true, Re.cat (lit "página") (Re.cat sp0 (Re.cls (fun c => c == '<' || c.isDigit)))⟩,
    -- r"^page\s*\d"
    ⟨true, Re.cat (lit "page") (Re.cat sp0 dig)⟩,
    -- r"página\s*<\s*\d+\s*de"
    ⟨false, Re.cat (lit "página") (Re.cat sp0 (Re.cat (Re.cls (fun c => c == '<'))
      (Re.cat sp0 (Re.cat (rplus dig) (Re.cat sp0 (lit "de"))))))⟩,
    -- r"arcelormittal"
    ⟨false, lit "arcelormittal"⟩,
    -- r"saúde\s*(e|&)\s*segurança"
    ⟨false, Re.cat (lit "saúde") (Re.cat sp0 (Re.cat
      (Re.alt (Re.cls (fun c => c == 'e')) (Re.cls (fun c => c == '&')))
      (Re.cat sp0 (lit "segurança"))))⟩,
    -- r"am\s*safety\s*st"
    ⟨false, Re.cat (lit "am") (Re.cat sp0 (Re.cat (lit "safety") (Re.cat sp0 (lit "st"))))⟩,
    -- r"am\s*segurança\s*st"
    ⟨false, Re.cat (lit "am") (Re.cat sp0 (Re.cat (lit "segurança") (Re.cat sp0 (lit "st"))))⟩,
    -- r"instruções\s*$"
    ⟨false, Re.cat (lit "instruções") (Re.cat sp0 Re.eos)⟩,
    -- r"technology.*health"  (`.` does not match a newline)
    ⟨false, Re.cat (lit "technology")
      (Re.cat (Re.star (Re.cls (fun c => c != '\n'))) (lit "health"))⟩,
    -- r"^espaços\s*$"
    ⟨true, Re.cat (lit "espaços") (Re.cat sp0 Re.eos)⟩,
    -- r"^confinados\s*$"
    ⟨true, Re.cat (lit "confinados") (Re.cat sp0 Re.eos)⟩,
    -- r"corporativo"
    ⟨false, lit "corporativo"⟩,
    -- r"circulação\s*controlada"
    ⟨false, Re.cat (lit "circulação") (Re.cat sp0 (lit "controlada"))⟩ ]

/-- The three `footer_patterns` of `is_page_footer`, in source order. -/
def footer_patterns : List Pat :=
  [ -- r"^\d+\s*$"
    ⟨true, Re.cat (rplus dig) (Re.cat sp0 Re.eos)⟩,
    -- r"^página\s*\d"
    ⟨true, Re.cat (lit "página") (Re.cat sp0 dig)⟩,
    -- r"^page\s*\d"
    ⟨true, Re.cat (lit "page") (Re.cat sp0 dig)⟩ ]

/-- Computation `text.lower().strip()` as performed by the classifiers. -/
def pyLowerStrip (s : String) : String := pyStrip (pyLower s)

/-- Does the (already case-folded, stripped) text match some header
pattern? -/
def matchesAnyHeader (s : String) : Bool := header_patterns.any (fun p => reSearch p s)

/-- Does the (already case-folded, stripped) text match some footer
pattern? -/
def matchesAnyFooter (s : String) : Bool := footer_patterns.any (fun p => reSearch p s)

/-- Among the first 5 lines of the (case-folded, stripped) text, how many
lines (each stripped) match some header pattern?  (`header_line_count` in
the source; a line is counted once even if several patterns match.) -/
def headerLineCount (s : String) : Nat :=
  (((splitNl s).take 5).filter (fun l => matchesAnyHeader (pyStrip l))).length

/-- Function `is_page_header(text, y_position, page_height)`: positional rule
(`y < 0.20 * H` and some pattern matches the lowered, stripped text) or
density rule (at least 3 of the first 5 lines match). -/
def is_page_header (text : String) (y_position page_height : ℚ) : Bool :=
  let text_lower := pyLowerStrip text
  (if y_position < page_height * (20/100) then matchesAnyHeader text_lower else false)
  || decide (3 ≤ headerLineCount text_lower)

/-- Function `is_page_footer(text, y_position, page_height)`: `y > 0.9 * H` and
some footer pattern matches the lowered, stripped text. -/
def is_page_footer (text : String) (y_position page_height : ℚ) : Bool :=
  if page_height * (9/10) < y_position then matchesAnyFooter (pyLowerStrip text)
  else false

/-- Pattern r"^\d+\.?\s*[–\-:.]?\s*[A-ZÁÊÔÇ]" : the numbered-heading rule of
`detect_element_type`. -/
def numberedRe : Re :=
  Re.cat (rplus dig) (Re.cat (ropt (Re.cls (fun c => c == '.')))
    (Re.cat sp0 (Re.cat (ropt (Re.cls (fun c => c == '–' || c == '-' || c == ':' || c == '.')))
      (Re.cat sp0 (Re.cls (fun c =>
        ('A' ≤ c && c ≤ 'Z') || c == 'Á' || c == 'Ê' || c == 'Ô' || c == 'Ç'))))))

/-- The `section_keywords` list of `detect_element_type`, in source order. -/
def section_keywords : List String :=
  ["escopo", "definições", "definicoes", "responsabilidades",
   "procedimentos", "objetivo", "anexo", "apêndice", "appendice"]

/-- Pattern r"^[\-•●○◦▪]\s+" : the bullet list rule. -/
def bulletRe : Re :=
  Re.cat (Re.cls (fun c =>
    c == '-' || c == '•' || c == '●' || c == '○' || c == '◦' || c == '▪'))
    (rplus (Re.cls isSpacePy))

/-- Pattern r"^\d+\.\d+\.\d+\.?\s+" : the three-level numbering rule. -/
def dddRe : Re :=
  Re.cat (rplus dig) (Re.cat (Re.cls (fun c => c == '.'))
    (Re.cat (rplus dig) (Re.cat (Re.cls (fun c => c == '.'))
      (Re.cat (rplus dig) (Re.cat (ropt (Re.cls (fun c => c == '.')))
        (rplus (Re.cls isSpacePy)))))))

/-- Function `detect_element_type(text, font_size=None, is_bold=False)`: Title
(numbered heading and length < 100, or a section keyword start and length
< 80), then ListItem (bullet or three-level numbering), else
NarrativeText.  `font_size` and `is_bold` are unused by the source. -/
def detect_element_type (text : String) (font_size : Option ℚ := none)
    (is_bold : Bool := false) : String :=
  let text_stripped := pyStrip text
  if reMatch numberedRe text_stripped && decide (text_stripped.length < 100) then "Title"
  else if section_keywords.any (fun kw =>
      kw.data.isPrefixOf (pyLower text_stripped).data
        && decide (text_stripped.length < 80)) then "Title"
  else if reMatch bulletRe text_stripped then "ListItem"
  else if reMatch dddRe text_stripped then "ListItem"
  else "NarrativeText"


/-! ### The page-primitive collaborator and the `extract_pdf` pipeline

pdfplumber is external to the repository; a `Page` packages what the
source consumes from it: the page height, the detected table regions
(bounding box plus extracted cell grid), the character objects (with
optional `x0`/`top` coordinates), the layout-preserving text rendering of
a set of character objects (`render`, the behaviour of
`filtered.extract_text(layout=True)`), and the position lookup
(`search`, the behaviour of `page.search`, returning the `top`
coordinates of the matches in order). -/

/-- A pdfplumber bounding box `(x0, top, x1, bottom)`. -/
structure BBox where
  x0 : ℚ
  top : ℚ
  x1 : ℚ
  bottom : ℚ
deriving DecidableEq

/-- A detected table region: bounding box and extracted cell grid
(`table.bbox` and `table.extract()`). -/
structure PTable where
  bbox : BBox
  extract : List (List (Option String))

/-- A page object (char, line, rect, ...) as seen by the filter lambda:
`x0` and `top` may be absent, and `ch` is its text content consumed by
the rendering. -/
structure PChar where
  x0 : Option ℚ
  top : Option ℚ
  ch : Char
deriving DecidableEq

/-- A page of the document, as provided by the external collaborator. -/
structure Page where
  height : ℚ
  tables : List PTable
  chars : List PChar
  render : List PChar → Option String
  search : String → List ℚ

/-- Python `str(cell) if cell else ""`: `None` and the empty string are falsy. -/
def cellStr : Option String → String
  | none => ""
  | some s => if s = "" then "" else s

/-- One row of a table rendered as text: cells joined by `" | "`. -/
def rowText (row : List (Option String)) : String :=
  String.intercalate " | " (row.map cellStr)

/-- A cell grid rendered as text: rows joined by newline. -/
def tableText (grid : List (List (Option String))) : String :=
  String.intercalate "\n" (grid.map rowText)

/-- The `Table` element built for a region whose grid is non-empty:
`rows` is the number of rows and `cols` the length of the first row
(`len(table_data[0]) if table_data else 0`). -/
structure Element where
  etype : String
  text : String
  page : Nat
  rows : Option Nat
  cols : Option Nat
deriving DecidableEq

/-- The `Table` element the loop body appends for a region. -/
def mkTableElem (page_num : Nat) (t : PTable) : Element :=
  { etype := "Table"
    text := tableText t.extract
    page := page_num
    rows := some t.extract.length
    cols := some (match t.extract with | [] => 0 | row :: _ => row.length) }

/-- The `for table in tables` loop: for each region whose extracted grid
is truthy (non-empty), append one `Table` element and append the page
number to the `tables_found` list. -/
def tablesLoop (page_num : Nat) : List PTable → List Element × List Nat
  | [] => ([], [])
  | t :: ts =>
    let rest := tablesLoop page_num ts
    if t.extract.isEmpty then rest
    else (mkTableElem page_num t :: rest.1, page_num :: rest.2)

/-- The filter lambda of `page.filter`: keep an object iff it has no
`x0`, or its `(x0, top)` (with `top` defaulting to 0) lies inside no
table bounding box. -/
def keepObj (table_bboxes : List BBox) (o : PChar) : Bool :=
  match o.x0 with
  | none => true
  | some x =>
    !(table_bboxes.any fun b =>
      decide (b.x0 ≤ x) && decide (x ≤ b.x1)
        && decide (b.top ≤ o.top.getD 0) && decide (o.top.getD 0 ≤ b.bottom))

/-- The character objects surviving the table-region text filter
(`table_bboxes` is built from ALL detected regions, before the grids are
inspected). -/
def filteredChars (page : Page) : List PChar :=
  page.chars.filter (keepObj (page.tables.map PTable.bbox))

/-- Rendering `text_outside_tables.extract_text(layout=True) or ""`. -/
def pageText (page : Page) : String :=
  (page.render (filteredChars page)).getD ""

/-- Pattern r"\n\s*\n" : the paragraph-splitting rule. -/
def blankRe : Re :=
  Re.cat (Re.cls (fun c => c == '\n')) (Re.cat sp0 (Re.cls (fun c => c == '\n')))

/-- The greedy-preferred remainder after matching `blankRe` at the head
of `s` (the head of the backtracking-ordered match list). -/
def blankMatch (s : List Char) : Option (List Char) :=
  (Re.sufs (reFuel blankRe s) blankRe s).head?

/-- Python `re.split(r'\n\s*\n', text)` on character lists: repeatedly find the
leftmost (greedy) match and cut there.  `blankRe` always consumes at
least two characters, so `s.length + 1` steps of fuel suffice. -/
def reSplitGo : Nat → List Char → List Char → List (List Char)
  | _, acc, [] => [acc.reverse]
  | 0, acc, s => [acc.reverse ++ s]
  | fuel+1, acc, c :: s =>
    match blankMatch (c :: s) with
    | some rest => acc.reverse :: reSplitGo fuel [] rest
    | none => reSplitGo fuel (c :: acc) s

/-- Python `re.split(r'\n\s*\n', text)`. -/
def reSplit (s : String) : List String :=
  (reSplitGo (s.data.length + 1) [] s.data).map String.mk

/-- The paragraph candidates of a page. -/
def paragraphsOf (page : Page) : List String := reSplit (pageText page)

/-- Python slicing `s[:n]` (by code points). -/
def strTake (s : String) (n : Nat) : String := ⟨s.data.take n⟩

/-- The vertical position resolved for a (stripped) paragraph:
`page.search(para[:20])` when the paragraph has at least 20 characters,
else no lookup; the first match's `top`, defaulting to mid-page height
when there is no match. -/
def yPos (page : Page) (para : String) : ℚ :=
  let first_char := if 20 ≤ para.length then page.search (strTake para 20) else []
  match first_char with
  | [] => page.height / 2
  | t :: _ => t

/-- The body of the `for para in paragraphs` loop: strip, drop when falsy
or shorter than 5 characters, drop headers and footers, otherwise build
the typed element. -/
def paraElement (page : Page) (page_num : Nat) (para0 : String) : Option Element :=
  let para := pyStrip para0
  if para.data.isEmpty || decide (para.length < 5) then none
  else
    let y_pos := yPos page para
    if is_page_header para y_pos page.height then none
    else if is_page_footer para y_pos page.height then none
    else some { etype := detect_element_type para, text := para, page := page_num,
                rows := none, cols := none }

/-- One iteration of the page loop: the elements contributed by the page
(tables first, then surviving paragraphs) and its `tables_found`
contribution. -/
def pageElements (page_num : Nat) (page : Page) : List Element × List Nat :=
  let t := tablesLoop page_num page.tables
  (t.1 ++ (paragraphsOf page).filterMap (paraElement page page_num), t.2)

/-- The result dictionary of `extract_pdf`. -/
structure Document where
  filename : String
  filepath : String
  pages : Nat
  element_count : Nat
  tables_found : Nat
  elements : List Element

/-- Function `extract_pdf`: the page loop (pages enumerated from 1), followed by
the result dictionary.  `filename`/`filepath` (`path.name`,
`str(path.absolute())`) are resolved by the external filesystem and
passed through. -/
def extract_pdf (filename filepath : String) (pdfPages : List Page) : Document :=
  let res := (pdfPages.enumFrom 1).foldl
    (fun acc p =>
      let r := pageElements p.1 p.2
      (acc.1 ++ r.1, acc.2 ++ r.2))
    ([], [])
  { filename := filename
    filepath := filepath
    pages := pdfPages.length
    element_count := res.1.length
    tables_found := res.2.length
    elements := res.1 }

/-! ### The CLI surface (`main`)

The filesystem and pdfplumber are modelled as a map from a path to the
page primitives of the document stored there (`none` when the path does
not exist; `extract_pdf` raises `FileNotFoundError` in that case, which
`main` catches).  JSON serialisation (`json.dumps`, external library) is
kept abstract: the model records WHICH document would be serialised
where. -/

/-- The observable outcome of one `main` invocation. -/
structure MainResult where
  exitCode : Nat
  stderrLines : List String
  stdout : Option Document
  written : Option (String × Document)

/-- The existence check and open of `extract_pdf`: `FileNotFoundError`
with message `"File not found: " + filepath` when the path does not
exist. -/
def extract_pdf_checked (fs : String → Option (String × List Page)) (filepath : String) :
    Except String Document :=
  match fs filepath with
  | none => Except.error ("File not found: " ++ filepath)
  | some doc => Except.ok (extract_pdf doc.1 filepath doc.2)

/-- Function `main`: run the extraction, then either write the JSON to `--output`
(with a one-line summary on standard error) or print it to standard
output; on `FileNotFoundError` print `"Error: ..."` to standard error
and exit 1.  `pretty` only affects serialisation, which is abstract
here. -/
def main (fs : String → Option (String × List Page)) (pdf_file : String)
    (output : Option String) (pretty : Bool) : MainResult :=
  match extract_pdf_checked fs pdf_file with
  | Except.error msg =>
    { exitCode := 1, stderrLines := ["Error: " ++ msg], stdout := none, written := none }
  | Except.ok result =>
    match output with
    | some out =>
      { exitCode := 0
        stderrLines :=
          ["Extracted " ++ toString result.element_count ++ " elements to " ++ out]
        stdout := none
        written := some (out, result) }
    | none =>
      { exitCode := 0, stderrLines := [], stdout := some result, written := none }


/-! ### Structural lemmas about the pipeline -/

/-- The claim-side reading of the Title rule, built from the same
source-translated pieces (the numbered-heading regular expression, the
section keywords). -/
def titleCond (text : String) : Prop :=
  (reMatch numberedRe (pyStrip text) = true ∧ (pyStrip text).length < 100) ∨
  (∃ kw ∈ section_keywords,
    kw.data.isPrefixOf (pyLower (pyStrip text)).data = true ∧ (pyStrip text).length < 80)

/-- The claim-side reading of the ListItem rule. -/
def listCond (text : String) : Prop :=
  reMatch bulletRe (pyStrip text) = true ∨ reMatch dddRe (pyStrip text) = true

def tW : PTable := ⟨⟨0, 0, 0, 0⟩, [[some "A", some "B"], [some "C", none]]⟩


/-- A concrete one-paragraph page: no tables, the rendering produces one
narrative sentence, position lookup finds nothing. -/
def pgW : Page :=
  { height := 100, tables := [], chars := [],
    render := fun _ => some "The pump failed during test.",
    search := fun _ => [] }

/-- The element `extract_pdf` produces for `pgW`. -/
def eW : Element :=
  { etype := "NarrativeText", text := "The pump failed during test.", page := 1,
    rows := none, cols := none }

/-- A table region whose extraction yields an empty grid. -/
def tEmpty : PTable := ⟨⟨0, 0, 50, 50⟩, []⟩

/-- A page whose only table region has an empty extracted grid and whose
characters (spelling `"hello world."`) all lie inside that region's
bounding box. -/
def c5Page : Page :=
  { height := 100,
    tables := [tEmpty],
    chars :=
      [⟨some 1, some 1, 'h'⟩, ⟨some 2, some 1, 'e'⟩, ⟨some 3, some 1, 'l'⟩,
       ⟨some 4, some 1, 'l'⟩, ⟨some 5, some 1, 'o'⟩, ⟨some 6, some 1, ' '⟩,
       ⟨some 7, some 1, 'w'⟩, ⟨some 8, some 1, 'o'⟩, ⟨some 9, some 1, 'r'⟩,
       ⟨some 10, some 1, 'l'⟩, ⟨some 11, some 1, 'd'⟩, ⟨some 12, some 1, '.'⟩],
    render := fun cs => some ⟨cs.map PChar.ch⟩,
    search := fun _ => [] }

/-- A page whose only table region extracts to a 1×1 grid holding a
single `None` cell. -/
def c8Page : Page :=
  { height := 100,
    tables := [⟨⟨0, 0, 10, 10⟩, [[none]]⟩],
    chars := [],
    render := fun _ => some "",
    search := fun _ => [] }

/-- A page whose rendered text is the 3-character paragraph `"ok."`. -/
def okPage : Page :=
  { height := 100, tables := [], chars := [],
    render := fun _ => some "ok.",
    search := fun _ => [] }

/-! ### Sanity checks on concrete inputs -/

example : detect_element_type "1. Scope" = "Title" := by decide
example : detect_element_type "- check valve" = "ListItem" := by decide
example : detect_element_type "The pump failed during test." = "NarrativeText" := by decide
example : is_page_header "ArcelorMittal corporativo" 1 100 = true := by
  with_unfolding_all decide
example : is_page_footer "página 3" 95 100 = true := by with_unfolding_all decide
example : reSplit "ok.\n\n1. Scope\n\nfoo" = ["ok.", "1. Scope", "foo"] := by decide


/-- The page loop's fold, unfolded to a `flatMap` over the enumerated
pages. -/
theorem pageLoop_eq (l : List (Nat × Page)) (a : List Element) (b : List Nat) :
    l.foldl (fun acc p =>
      let r := pageElements p.1 p.2
      (acc.1 ++ r.1, acc.2 ++ r.2)) (a, b)
    = (a ++ l.flatMap (fun p => (pageElements p.1 p.2).1),
       b ++ l.flatMap (fun p => (pageElements p.1 p.2).2)) := by
  induction l generalizing a b with
  | nil => simp
  | cons hd tl ih => simp [ih]

/-- The elements of the output document, page by page. -/
theorem extract_pdf_elements (fn fp : String) (pdfPages : List Page) :
    (extract_pdf fn fp pdfPages).elements
      = (pdfPages.enumFrom 1).flatMap (fun p => (pageElements p.1 p.2).1) := by
  unfold extract_pdf
  rw [pageLoop_eq]
  simp

/-- The `tables_found` list of the output document, page by page. -/
theorem extract_pdf_tablesFound (fn fp : String) (pdfPages : List Page) :
    (extract_pdf fn fp pdfPages).tables_found
      = ((pdfPages.enumFrom 1).flatMap (fun p => (pageElements p.1 p.2).2)).length := by
  unfold extract_pdf
  rw [pageLoop_eq]
  simp

/-- The element count of the output document, page by page. -/
theorem extract_pdf_element_count (fn fp : String) (pdfPages : List Page) :
    (extract_pdf fn fp pdfPages).element_count
      = ((pdfPages.enumFrom 1).flatMap (fun p => (pageElements p.1 p.2).1)).length := by
  unfold extract_pdf
  rw [pageLoop_eq]
  simp

/-- Every element the table loop emits is a `Table` element of the given
page, built from a region with a truthy grid. -/
theorem mem_tablesLoop {page_num : Nat} {ts : List PTable} {e : Element}
    (h : e ∈ (tablesLoop page_num ts).1) :
    ∃ t ∈ ts, ¬ t.extract.isEmpty = true ∧ e = mkTableElem page_num t := by
  induction ts with
  | nil => simp [tablesLoop] at h
  | cons hd tl ih =>
    unfold tablesLoop at h
    by_cases hh : hd.extract.isEmpty
    · simp only [hh, if_pos] at h
      obtain ⟨t, ht, he⟩ := ih h
      exact ⟨t, List.mem_cons_of_mem _ ht, he⟩
    · simp only [hh, if_neg, Bool.false_eq_true, not_false_iff] at h
      rcases List.mem_cons.mp h with he | he
      · exact ⟨hd, List.mem_cons_self _ _, by simp [hh], he⟩
      · obtain ⟨t, ht, he⟩ := ih he
        exact ⟨t, List.mem_cons_of_mem _ ht, he⟩

/-- What a `some` result of the paragraph-loop body entails: the element
records the stripped paragraph text, the page number, the classified
type, and the paragraph passed the length, header and footer tests. -/
theorem paraElement_some {page : Page} {page_num : Nat} {para0 : String} {e : Element}
    (h : paraElement page page_num para0 = some e) :
    e.etype = detect_element_type (pyStrip para0)
      ∧ e.text = pyStrip para0 ∧ e.page = page_num ∧ e.rows = none ∧ e.cols = none
      ∧ ¬ (pyStrip para0).data.isEmpty = true
      ∧ 5 ≤ (pyStrip para0).length
      ∧ is_page_header (pyStrip para0) (yPos page (pyStrip para0)) page.height = false
      ∧ is_page_footer (pyStrip para0) (yPos page (pyStrip para0)) page.height = false := by
  unfold paraElement at h
  simp only at h
  by_cases h1 : (pyStrip para0).data.isEmpty || decide ((pyStrip para0).length < 5)
  · rw [if_pos h1] at h; exact absurd h (by simp)
  · rw [if_neg h1] at h
    rw [Bool.or_eq_true, not_or, Bool.not_eq_true, Bool.not_eq_true, decide_eq_false_iff_not,
      not_lt] at h1
    by_cases h2 : is_page_header (pyStrip para0) (yPos page (pyStrip para0)) page.height
    · rw [if_pos h2] at h; exact absurd h (by simp)
    · rw [if_neg h2] at h
      by_cases h3 : is_page_footer (pyStrip para0) (yPos page (pyStrip para0)) page.height
      · rw [if_pos h3] at h; exact absurd h (by simp)
      · rw [if_neg h3] at h
        cases h
        exact ⟨rfl, rfl, rfl, rfl, rfl, by simp [h1.1], h1.2,
          Bool.not_eq_true _ ▸ h2, Bool.not_eq_true _ ▸ h3⟩

/-- Every element a page contributes either comes from the table loop or
from some paragraph of the page. -/
theorem mem_pageElements {page_num : Nat} {page : Page} {e : Element}
    (h : e ∈ (pageElements page_num page).1) :
    e ∈ (tablesLoop page_num page.tables).1
      ∨ ∃ p ∈ paragraphsOf page, paraElement page page_num p = some e := by
  unfold pageElements at h
  simp only at h
  rcases List.mem_append.mp h with h | h
  · exact Or.inl h
  · right
    obtain ⟨p, hp, he⟩ := List.mem_filterMap.mp h
    exact ⟨p, hp, he⟩

/-- Every element a page contributes carries that page's number. -/
theorem page_of_mem_pageElements {page_num : Nat} {page : Page} {e : Element}
    (h : e ∈ (pageElements page_num page).1) : e.page = page_num := by
  rcases mem_pageElements h with h | ⟨p, _, hp⟩
  · obtain ⟨t, _, _, he⟩ := mem_tablesLoop h
    rw [he]; rfl
  · exact (paraElement_some hp).2.2.1

/-- The classifier decision, written as the three mutually exclusive
rules of the specification. -/
theorem detect_characterization (text : String) :
    (detect_element_type text = "Title" ↔ titleCond text)
    ∧ (detect_element_type text = "ListItem" ↔ (¬ titleCond text ∧ listCond text))
    ∧ (detect_element_type text = "NarrativeText" ↔ (¬ titleCond text ∧ ¬ listCond text)) := by
  have htitle : titleCond text ↔
      (reMatch numberedRe (pyStrip text) && decide ((pyStrip text).length < 100)
        || section_keywords.any fun kw =>
            kw.data.isPrefixOf (pyLower (pyStrip text)).data
              && decide ((pyStrip text).length < 80)) = true := by
    simp [titleCond, List.any_eq_true]
  have hlist : listCond text ↔
      (reMatch bulletRe (pyStrip text) || reMatch dddRe (pyStrip text)) = true := by
    simp [listCond]
  unfold detect_element_type
  dsimp only
  split_ifs with h1 h2 h3 h4 <;> simp_all

/-- C1: `is_page_header` returns true iff (a) `y < 0.20 * H` and the
case-folded (and stripped) paragraph text matches some header pattern,
or (b) at least 3 of the paragraph's first 5 lines each match some
header pattern; in particular a 5-line paragraph whose first three lines
each match a header pattern is classified as a header at every vertical
position, including `y = 0.5 * H`. -/
theorem c1_header_classifier :
    (∀ (text : String) (y H : ℚ),
      is_page_header text y H = true ↔
        ((y < H * (20/100) ∧ matchesAnyHeader (pyLowerStrip text) = true)
          ∨ 3 ≤ headerLineCount (pyLowerStrip text)))
    ∧ (∀ (y H : ℚ),
      is_page_header "arcelormittal 2024\narcelormittal 2024\narcelormittal 2024\nvalve data\nmore data" y H = true) := by
  constructor
  · intro text y H
    by_cases h : y < H * (20/100)
    · simp [is_page_header, h]
    · simp [is_page_header, h]
  · intro y H
    have hd : decide (3 ≤ headerLineCount (pyLowerStrip
        "arcelormittal 2024\narcelormittal 2024\narcelormittal 2024\nvalve data\nmore data"))
        = true := by decide
    simp [is_page_header, hd]

/-- C3: the element-type classifier is a function of the text alone
(`font_size` and `is_bold` are ignored), applies Title, then ListItem,
then NarrativeText exactly as specified, and classifies the three
specified examples accordingly. -/
theorem c3_element_type :
    (∀ (text : String) (f1 f2 : Option ℚ) (b1 b2 : Bool),
      detect_element_type text f1 b1 = detect_element_type text f2 b2)
    ∧ (∀ text : String, detect_element_type text = "Title" ↔ titleCond text)
    ∧ (∀ text : String,
        detect_element_type text = "ListItem" ↔ (¬ titleCond text ∧ listCond text))
    ∧ (∀ text : String,
        detect_element_type text = "NarrativeText" ↔ (¬ titleCond text ∧ ¬ listCond text))
    ∧ detect_element_type "1. Scope" = "Title"
    ∧ detect_element_type "- check valve" = "ListItem"
    ∧ detect_element_type "The pump failed during test." = "NarrativeText" :=
  ⟨fun _ _ _ _ _ => rfl,
   fun text => (detect_characterization text).1,
   fun text => (detect_characterization text).2.1,
   fun text => (detect_characterization text).2.2,
   by decide, by decide, by decide⟩

/-- C4: for a table region whose extracted grid is non-empty, the table
loop produces exactly one `Table` element, whose text is the rows joined
by newline with cells joined by `" | "` and `None`/empty cells rendered
as `""`, whose `rows` is the number of rows and whose `cols` is the
length of the first row; on the grid `[["A","B"],["C",None]]` this gives
`text = "A | B\nC | "`, `rows = 2`, `cols = 2`. -/
theorem c4_table_element (page_num : Nat) (t : PTable) (ts : List PTable)
    (h : ¬ t.extract.isEmpty = true) :
    (tablesLoop page_num (t :: ts)).1 = mkTableElem page_num t :: (tablesLoop page_num ts).1
    ∧ (mkTableElem page_num t).etype = "Table"
    ∧ (mkTableElem page_num t).text
        = String.intercalate "\n"
            (t.extract.map (fun row => String.intercalate " | " (row.map cellStr)))
    ∧ (mkTableElem page_num t).rows = some t.extract.length
    ∧ (mkTableElem page_num t).cols = some (t.extract.headD []).length
    ∧ mkTableElem 1 ⟨⟨0, 0, 0, 0⟩, [[some "A", some "B"], [some "C", none]]⟩
        = { etype := "Table", text := "A | B\nC | ", page := 1,
            rows := some 2, cols := some 2 } := by
  refine ⟨?_, rfl, rfl, rfl, ?_, by decide⟩
  · show (if t.extract.isEmpty = true then tablesLoop page_num ts
      else (mkTableElem page_num t :: (tablesLoop page_num ts).1,
        page_num :: (tablesLoop page_num ts).2)).1
      = mkTableElem page_num t :: (tablesLoop page_num ts).1
    rw [if_neg h]
  · cases ht : t.extract with
    | nil => exact absurd (by simp [ht]) h
    | cons r rs => simp [mkTableElem, ht]


/-- Witness for C4 at a concrete region. -/
theorem c4_witness :
    ¬ tW.extract.isEmpty = true
    ∧ (tablesLoop 1 (tW :: [])).1 = mkTableElem 1 tW :: (tablesLoop 1 []).1 :=
  ⟨by decide, (c4_table_element 1 tW [] (by decide)).1⟩

/-- C2: `is_page_footer` returns true iff `y > 0.90 * H` and the
case-folded (and stripped) text matches some footer pattern; and every
non-`Table` element of an output document was cleared by both
classifiers (headers and footers are skipped before any element is
created, so none appears in `elements`). -/
theorem c2_footer_classifier :
    (∀ (text : String) (y H : ℚ),
      is_page_footer text y H = true ↔
        (H * (9/10) < y ∧ matchesAnyFooter (pyLowerStrip text) = true))
    ∧ (∀ (fn fp : String) (pdfPages : List Page),
        ∀ e ∈ (extract_pdf fn fp pdfPages).elements, e.etype ≠ "Table" →
        ∃ pg, pdfPages[e.page - 1]? = some pg
          ∧ is_page_header e.text (yPos pg e.text) pg.height = false
          ∧ is_page_footer e.text (yPos pg e.text) pg.height = false) := by
  constructor
  · intro text y H
    by_cases h : H * (9/10) < y
    · simp [is_page_footer, h]
    · simp [is_page_footer, h]
  · intro fn fp pdfPages e he hne
    rw [extract_pdf_elements] at he
    obtain ⟨⟨n, pg⟩, hmem, hin⟩ := List.mem_flatMap.mp he
    have hpage : e.page = n := page_of_mem_pageElements hin
    have hidx := (List.mk_mem_enumFrom_iff_le_and_getElem?_sub.mp hmem).2
    rcases mem_pageElements hin with ht | ⟨p, _, hpe⟩
    · obtain ⟨t, _, _, he'⟩ := mem_tablesLoop ht
      exact absurd (by rw [he']; rfl) hne
    · obtain ⟨_, htext, _, _, _, _, _, hhd, hft⟩ := paraElement_some hpe
      exact ⟨pg, by rw [hpage]; exact hidx, by rw [htext]; exact hhd, by rw [htext]; exact hft⟩


/-- Witness for C2 on the concrete one-page document. -/
theorem c2_witness :
    eW ∈ (extract_pdf "a" "b" [pgW]).elements ∧ eW.etype ≠ "Table"
    ∧ (∃ pg, [pgW][eW.page - 1]? = some pg
      ∧ is_page_header eW.text (yPos pg eW.text) pg.height = false
      ∧ is_page_footer eW.text (yPos pg eW.text) pg.height = false) :=
  ⟨by with_unfolding_all decide, by decide,
   c2_footer_classifier.2 "a" "b" [pgW] eW (by with_unfolding_all decide) (by decide)⟩

/-- C6: a surviving paragraph whose stripped text is shorter than 20
characters performs no position lookup (the result is mid-page height
whatever `page.search` is), is never a footer, and is a header exactly
when the 3-of-first-5-lines density rule fires (the positional header
rule cannot fire at mid-page height). -/
theorem c6_short_paragraph (pg : Page) (para : String)
    (hlen : para.length < 20) (hH : 0 ≤ pg.height) :
    yPos pg para = pg.height / 2
    ∧ (∀ s : String → List ℚ, yPos { pg with search := s } para = pg.height / 2)
    ∧ is_page_footer para (yPos pg para) pg.height = false
    ∧ (is_page_header para (yPos pg para) pg.height = true
        ↔ 3 ≤ headerLineCount (pyLowerStrip para)) := by
  have hy : ∀ q : Page, q.height = pg.height → yPos q para = pg.height / 2 := by
    intro q hq
    unfold yPos
    rw [if_neg (Nat.not_le.mpr hlen), hq]
  have hyp := hy pg rfl
  have hfoot : ¬ (pg.height * (9/10) < pg.height / 2) := by linarith
  have hhead : ¬ (pg.height / 2 < pg.height * (20/100)) := by linarith
  refine ⟨hyp, fun s => hy _ rfl, ?_, ?_⟩
  · rw [hyp]
    unfold is_page_footer
    rw [if_neg hfoot]
  · rw [hyp]
    simp [is_page_header, hhead]

/-- Witness for C6: a 12-character paragraph on a 100-high page. -/
theorem c6_witness :
    ("valve checks" : String).length < 20 ∧ (0 : ℚ) ≤ pgW.height
    ∧ (is_page_footer "valve checks" (yPos pgW "valve checks") pgW.height = false
      ∧ (is_page_header "valve checks" (yPos pgW "valve checks") pgW.height = true
          ↔ 3 ≤ headerLineCount (pyLowerStrip "valve checks"))) :=
  ⟨by decide, by norm_num [pgW],
   (c6_short_paragraph pgW "valve checks" (by decide) (by norm_num [pgW])).2.2⟩

/-- The table loop is an order-preserving map over the regions with a
truthy grid, in detection order. -/
theorem tablesLoop_eq_map (page_num : Nat) (ts : List PTable) :
    (tablesLoop page_num ts).1
      = (ts.filter (fun t => !t.extract.isEmpty)).map (mkTableElem page_num) := by
  induction ts with
  | nil => rfl
  | cons hd tl ih =>
    unfold tablesLoop
    by_cases h : hd.extract.isEmpty <;> simp [h, ih]

/-- The `tables_found` contribution equals the number of table elements
the loop emitted. -/
theorem tablesLoop_len (page_num : Nat) (ts : List PTable) :
    (tablesLoop page_num ts).2.length = (tablesLoop page_num ts).1.length := by
  induction ts with
  | nil => rfl
  | cons hd tl ih =>
    unfold tablesLoop
    by_cases h : hd.extract.isEmpty <;> simp [h, ih]

/-- Every element of a page block at start index `k` has page number at
least `k`. -/
theorem le_page_of_mem_flat {k : Nat} {pgs : List Page} {e : Element}
    (h : e ∈ (pgs.enumFrom k).flatMap (fun p => (pageElements p.1 p.2).1)) :
    k ≤ e.page := by
  induction pgs generalizing k with
  | nil => simp [List.enumFrom] at h
  | cons hd tl ih =>
    simp only [List.enumFrom, List.flatMap_cons] at h
    rcases List.mem_append.mp h with h | h
    · rw [page_of_mem_pageElements h]
    · exact Nat.le_of_succ_le (ih h)

/-- Page-block concatenation is sorted by page number. -/
theorem pairwise_flat (k : Nat) (pgs : List Page) :
    ((pgs.enumFrom k).flatMap (fun p => (pageElements p.1 p.2).1)).Pairwise
      (fun a b => a.page ≤ b.page) := by
  induction pgs generalizing k with
  | nil => simp [List.enumFrom]
  | cons hd tl ih =>
    simp only [List.enumFrom, List.flatMap_cons]
    rw [List.pairwise_append]
    refine ⟨?_, ih (k + 1), ?_⟩
    · exact List.pairwise_of_reflexive_of_forall_ne (fun a => Nat.le_refl _)
        (fun a ha b hb _ => by
          rw [page_of_mem_pageElements ha, page_of_mem_pageElements hb])
    · intro a ha b hb
      rw [page_of_mem_pageElements ha]
      exact Nat.le_of_succ_le (le_page_of_mem_flat hb)

/-- C7: the elements of an output document are the concatenation, in
page order, of the per-page blocks; each block is the page's table
elements in region-detection order followed by the surviving paragraph
elements in paragraph-extraction order; and the whole list is sorted by
non-decreasing page number. -/
theorem c7_element_order (fn fp : String) (pdfPages : List Page) :
    ((extract_pdf fn fp pdfPages).elements
        = (pdfPages.enumFrom 1).flatMap (fun p => (pageElements p.1 p.2).1))
    ∧ (∀ (page_num : Nat) (pg : Page),
        (pageElements page_num pg).1
          = (pg.tables.filter (fun t => !t.extract.isEmpty)).map (mkTableElem page_num)
            ++ (paragraphsOf pg).filterMap (paraElement pg page_num))
    ∧ ((extract_pdf fn fp pdfPages).elements).Pairwise (fun a b => a.page ≤ b.page) := by
  refine ⟨extract_pdf_elements fn fp pdfPages, ?_, ?_⟩
  · intro page_num pg
    unfold pageElements
    dsimp only
    rw [tablesLoop_eq_map]
  · rw [extract_pdf_elements]
    exact pairwise_flat 1 pdfPages

/-- The classifier never answers `"Table"`. -/
theorem detect_ne_Table (s : String) (f : Option ℚ) (b : Bool) :
    detect_element_type s f b ≠ "Table" := by
  unfold detect_element_type
  dsimp only
  split_ifs <;> decide

/-- Per page, the number of `Table`-typed elements equals the
`tables_found` contribution. -/
theorem pageElements_count (page_num : Nat) (pg : Page) :
    ((pageElements page_num pg).1.filter (fun e => e.etype == "Table")).length
      = (pageElements page_num pg).2.length := by
  unfold pageElements
  dsimp only
  rw [List.filter_append]
  have h1 : (tablesLoop page_num pg.tables).1.filter (fun e => e.etype == "Table")
      = (tablesLoop page_num pg.tables).1 := by
    rw [List.filter_eq_self]
    intro e he
    obtain ⟨t, _, _, he'⟩ := mem_tablesLoop he
    rw [he']
    rfl
  have h2 : ((paragraphsOf pg).filterMap (paraElement pg page_num)).filter
      (fun e => e.etype == "Table") = [] := by
    rw [List.filter_eq_nil_iff]
    intro e he
    obtain ⟨p, _, hpe⟩ := List.mem_filterMap.mp he
    have ht := (paraElement_some hpe).1
    simp only [ht]
    exact (Bool.not_eq_true _).mpr (beq_eq_false_iff_ne.mpr (detect_ne_Table _ _ _))
  rw [h1, h2, List.append_nil, tablesLoop_len]

/-- C9: `tables_found` equals the number of `Table` elements in the
output's element list (one count per table element produced, not one per
page). -/
theorem c9_tables_found (fn fp : String) (pdfPages : List Page) :
    (extract_pdf fn fp pdfPages).tables_found
      = ((extract_pdf fn fp pdfPages).elements.filter
          (fun e => e.etype == "Table")).length := by
  rw [extract_pdf_elements, extract_pdf_tablesFound]
  induction (pdfPages.enumFrom 1) with
  | nil => rfl
  | cons hd tl ih =>
    simp only [List.flatMap_cons, List.filter_append, List.length_append, ih,
      pageElements_count]

/-! ### Stripping is idempotent (needed for the "length after trimming"
invariant) -/

theorem head?_dropWhile (p : Char → Bool) (l : List Char) :
    ∀ c, (l.dropWhile p).head? = some c → p c = false := by
  induction l with
  | nil => intro c h; simp at h
  | cons a t ih =>
    intro c h
    by_cases hp : p a
    · rw [List.dropWhile_cons, if_pos hp] at h
      exact ih c h
    · rw [List.dropWhile_cons, if_neg hp] at h
      simp only [List.head?_cons, Option.some.injEq] at h
      rw [← h]
      exact Bool.not_eq_true _ ▸ hp

theorem dropWhile_eq_self_of_head (p : Char → Bool) (l : List Char)
    (h : ∀ c, l.head? = some c → p c = false) : l.dropWhile p = l := by
  cases l with
  | nil => rfl
  | cons a t =>
    rw [List.dropWhile_cons, if_neg]
    simp [h a rfl]

theorem pyStripL_idem (l : List Char) : pyStripL (pyStripL l) = pyStripL l := by
  unfold pyStripL
  have hXfix : (((l.dropWhile isSpacePy).reverse.dropWhile isSpacePy).reverse).dropWhile
      isSpacePy = ((l.dropWhile isSpacePy).reverse.dropWhile isSpacePy).reverse := by
    apply dropWhile_eq_self_of_head
    intro c hc
    have hpre : ((l.dropWhile isSpacePy).reverse.dropWhile isSpacePy).reverse
        <+: l.dropWhile isSpacePy := by
      rw [← List.reverse_suffix, List.reverse_reverse]
      exact List.dropWhile_suffix _
    obtain ⟨u, hu⟩ := hpre
    have hhd : (l.dropWhile isSpacePy).head? = some c := by
      rw [← hu]
      cases hX : ((l.dropWhile isSpacePy).reverse.dropWhile isSpacePy).reverse with
      | nil => rw [hX] at hc; simp at hc
      | cons a t =>
        rw [hX] at hc
        simp only [List.head?_cons, Option.some.injEq] at hc
        simp [hc]
    exact head?_dropWhile isSpacePy l c hhd
  rw [hXfix, List.reverse_reverse, List.dropWhile_idempotent]

theorem pyStrip_idem (s : String) : pyStrip (pyStrip s) = pyStrip s :=
  congrArg String.mk (pyStripL_idem s.data)

/-! ### C5, C8, C10 -/


/-- C5 counterexample: on `c5Page` the only region's grid is empty, yet
its bounding box is registered as an exclusion box: the text filter
removes every character of the page (so the page contributes no element
at all), while the same page without the region yields the narrative
element — refuting "registers no exclusion bounding box, so the text
inside such a region is not removed". -/
theorem c5_counterexample :
    c5Page.tables.map PTable.extract = [[]]
    ∧ ¬ (filteredChars c5Page = c5Page.chars)
    ∧ filteredChars c5Page = []
    ∧ (extract_pdf "a" "b" [c5Page]).elements = []
    ∧ (extract_pdf "a" "b" [{ c5Page with tables := [] }]).elements
        = [{ etype := "NarrativeText", text := "hello world.", page := 1,
             rows := none, cols := none }] := by
  with_unfolding_all decide

/-- C5 amended: a table region whose extraction yields an empty cell
grid produces no `Table` element and no `tables_found` count, but its
bounding box IS registered as an exclusion box, so every character
inside that box is removed by the table-region text filter. -/
theorem c5_empty_grid_region (page_num : Nat) (t : PTable) (ts : List PTable) (pg : Page)
    (hempty : t.extract = []) (hmem : t ∈ pg.tables) :
    (tablesLoop page_num (t :: ts)).1 = (tablesLoop page_num ts).1
    ∧ (tablesLoop page_num (t :: ts)).2 = (tablesLoop page_num ts).2
    ∧ t.bbox ∈ pg.tables.map PTable.bbox
    ∧ (∀ c ∈ pg.chars, ∀ x : ℚ, c.x0 = some x →
        t.bbox.x0 ≤ x → x ≤ t.bbox.x1 →
        t.bbox.top ≤ c.top.getD 0 → c.top.getD 0 ≤ t.bbox.bottom →
        c ∉ filteredChars pg) := by
  have hloop : tablesLoop page_num (t :: ts) = tablesLoop page_num ts := by
    show (let rest := tablesLoop page_num ts
      if t.extract.isEmpty = true then rest
      else (mkTableElem page_num t :: rest.1, page_num :: rest.2)) = tablesLoop page_num ts
    rw [hempty]
    rfl
  refine ⟨by rw [hloop], by rw [hloop], List.mem_map_of_mem _ hmem, ?_⟩
  · intro c hc x hx0 h1 h2 h3 h4 hmem'
    have hk := (List.mem_filter.mp hmem').2
    unfold keepObj at hk
    rw [hx0] at hk
    simp only [Bool.not_eq_eq_eq_not, Bool.not_true, List.any_eq_false] at hk
    have hb := hk t.bbox (List.mem_map_of_mem _ hmem)
    simp [h1, h2, h3, h4] at hb

/-- Witness for the amended C5 on the concrete page. -/
theorem c5_witness :
    tEmpty.extract = [] ∧ tEmpty ∈ c5Page.tables
    ∧ ((tablesLoop 1 (tEmpty :: [])).1 = (tablesLoop 1 []).1
      ∧ (tablesLoop 1 (tEmpty :: [])).2 = (tablesLoop 1 []).2
      ∧ tEmpty.bbox ∈ c5Page.tables.map PTable.bbox
      ∧ (∀ c ∈ c5Page.chars, ∀ x : ℚ, c.x0 = some x →
          tEmpty.bbox.x0 ≤ x → x ≤ tEmpty.bbox.x1 →
          tEmpty.bbox.top ≤ c.top.getD 0 → c.top.getD 0 ≤ tEmpty.bbox.bottom →
          c ∉ filteredChars c5Page)) :=
  ⟨rfl, List.mem_cons_self _ _,
   c5_empty_grid_region 1 tEmpty [] c5Page rfl (List.mem_cons_self _ _)⟩


/-- C8 counterexample: the 1×1 `None` grid is truthy, so `c8Page` yields
a `Table` element whose text is the empty string — refuting "no
element's text is empty". -/
theorem c8_counterexample :
    ¬ (∀ e ∈ (extract_pdf "a" "b" [c8Page]).elements, e.text ≠ "") := by
  with_unfolding_all decide

/-- C8 amended: every NON-TABLE element's text is non-empty, already
stripped, and at least 5 characters long (before and after trimming);
the length-3 paragraph `"ok."` is dropped entirely, contributing neither
to `element_count` nor to `elements`.  (A `Table` element's text can be
empty, e.g. for a grid of `None` cells.) -/
theorem c8_min_length (fn fp : String) (pdfPages : List Page) :
    (∀ e ∈ (extract_pdf fn fp pdfPages).elements, e.etype ≠ "Table" →
      e.text ≠ "" ∧ 5 ≤ e.text.length ∧ pyStrip e.text = e.text
        ∧ 5 ≤ (pyStrip e.text).length)
    ∧ (extract_pdf fn fp [okPage]).elements = []
    ∧ (extract_pdf fn fp [okPage]).element_count = 0 := by
  refine ⟨?_, ?_, ?_⟩
  · intro e he hne
    rw [extract_pdf_elements] at he
    obtain ⟨⟨n, pg⟩, _, hin⟩ := List.mem_flatMap.mp he
    rcases mem_pageElements hin with ht | ⟨p, _, hpe⟩
    · obtain ⟨t, _, _, he'⟩ := mem_tablesLoop ht
      exact absurd (by rw [he']; rfl) hne
    · obtain ⟨_, htext, _, _, _, _, hlen, _, _⟩ := paraElement_some hpe
      have hstr : pyStrip e.text = e.text := by rw [htext, pyStrip_idem]
      refine ⟨?_, by rw [htext]; exact hlen, hstr, by rw [hstr, htext]; exact hlen⟩
      intro hemp
      rw [hemp] at htext
      rw [← htext] at hlen
      simp [String.length] at hlen
  · rw [extract_pdf_elements]
    with_unfolding_all decide
  · rw [extract_pdf_element_count]
    with_unfolding_all decide

/-- Witness for the amended C8 on the concrete one-page document. -/
theorem c8_witness :
    eW ∈ (extract_pdf "a" "b" [pgW]).elements ∧ eW.etype ≠ "Table"
    ∧ (eW.text ≠ "" ∧ 5 ≤ eW.text.length ∧ pyStrip eW.text = eW.text
        ∧ 5 ≤ (pyStrip eW.text).length) :=
  ⟨by with_unfolding_all decide, by decide,
   (c8_min_length "a" "b" [pgW]).1 eW (by with_unfolding_all decide) (by decide)⟩

/-- C10: when the input path does not exist, `main` exits with code 1,
prints exactly one diagnostic line (containing the offending filename)
to standard error, prints nothing to standard output, and writes no
output file even though `--output` was given. -/
theorem c10_not_found (fs : String → Option (String × List Page))
    (pdf_file out : String) (pretty : Bool) (h : fs pdf_file = none) :
    (main fs pdf_file (some out) pretty).exitCode = 1
    ∧ (main fs pdf_file (some out) pretty).written = none
    ∧ (main fs pdf_file (some out) pretty).stdout = none
    ∧ (main fs pdf_file (some out) pretty).stderrLines
        = ["Error: " ++ ("File not found: " ++ pdf_file)]
    ∧ (main fs pdf_file (some out) pretty).stderrLines.length = 1 := by
  unfold main extract_pdf_checked
  rw [h]
  exact ⟨rfl, rfl, rfl, rfl, rfl⟩

/-- Witness for C10 at `"/no/such.pdf"` on an empty filesystem. -/
theorem c10_witness :
    ((fun _ : String => (none : Option (String × List Page))) "/no/such.pdf" = none)
    ∧ (main (fun _ => none) "/no/such.pdf" (some "out.json") false).exitCode = 1
    ∧ (main (fun _ => none) "/no/such.pdf" (some "out.json") false).written = none :=
  ⟨rfl, (c10_not_found (fun _ => none) "/no/such.pdf" "out.json" false rfl).1,
   (c10_not_found (fun _ => none) "/no/such.pdf" "out.json" false rfl).2.1⟩

end ExtractPdf
